import Mathlib

/-!
# Verification of the drug-search retrieval pipeline

Shallow embedding of `src/packages/functions/src/search_handler.py`
(the query-to-ranked-groups retrieval pipeline).  External collaborators
(the language-understanding service, the embedding service and the Redis
candidate store) are modelled as oracles: the handler's post-processing of
their *parsed* responses is embedded faithfully, while the byte-level wire
parsing (`parse_redis_document`), the Redis query-string construction
(`build_filter_clause`, `build_text_clause`'s clause part,
`normalize_tag_values`, `build_numeric_clause`) and latency/cost metrics
are not modelled — they only shape the queries sent to the oracled store
and the diagnostics, which no claim depends on.  External calls are made
observable as an explicit trace of `ExtCall` values.

Strings are modelled over `List Char`; Python `str.upper`/`str.lower`
are modelled for ASCII (all data exercised by the claims is ASCII),
and text fields are assumed newline-free where a regex uses `.`/`$`
(drug names and classes are single-line fields).
-/

set_option linter.unusedVariables false

namespace DrugSearch

/-! ## Python character/string primitives -/

/-- Python `\d` (ASCII decimal digit as used by `str.isdigit` on this data). -/
def pyIsDigit (c : Char) : Bool := '0' ≤ c && c ≤ '9'

/-- Python `\s`: space, tab, newline, carriage return, form feed, vertical tab. -/
def pyIsSpace (c : Char) : Bool :=
  c = ' ' || c = '\t' || c = '\n' || c = '\r' || c = '\x0b' || c = '\x0c'

def pyIsAlpha (c : Char) : Bool :=
  ('a' ≤ c && c ≤ 'z') || ('A' ≤ c && c ≤ 'Z')

def lowerStr (s : List Char) : List Char := s.map Char.toLower

def upperStr (s : List Char) : List Char := s.map Char.toUpper

def pyLower (s : String) : String := String.mk (lowerStr s.data)

def pyUpper (s : String) : String := String.mk (upperStr s.data)

/-- Python `str.strip()`: trim leading and trailing whitespace. -/
def stripL (s : List Char) : List Char :=
  ((s.dropWhile pyIsSpace).reverse.dropWhile pyIsSpace).reverse

def pyStrip (s : String) : String := String.mk (stripL s.data)

/-- Whether `needle` occurs as a prefix of `hay` (exact characters). -/
def startsWithL : List Char → List Char → Bool
  | [], _ => true
  | _ :: _, [] => false
  | p :: ps, c :: cs => p = c && startsWithL ps cs

/-- Drop `pre` from the front of `s`, if it is a prefix. -/
def dropPrefixL : List Char → List Char → Option (List Char)
  | [], s => some s
  | _ :: _, [] => none
  | p :: ps, c :: cs => if p = c then dropPrefixL ps cs else none

/-- Case-insensitive prefix test (ASCII). -/
def startsWithCIL (p s : List Char) : Bool := startsWithL (lowerStr p) (lowerStr s)

/-- Python `needle in hay` on strings: substring containment. -/
def containsSubL (needle : List Char) : List Char → Bool
  | [] => startsWithL needle []
  | c :: cs => startsWithL needle (c :: cs) || containsSubL needle cs

/-- Python `sub in hay` for `String`s. -/
def pyContains (hay sub : String) : Bool := containsSubL sub.data hay.data

/-- Boolean scan over every suffix of the string (regex `search` driver). -/
def scanB (f : List Char → Bool) : List Char → Bool
  | [] => f []
  | c :: cs => f (c :: cs) || scanB f cs

/-- Leftmost-match scan returning the first position's result (regex `search`). -/
def scanOpt (f : List Char → Option α) : List Char → Option α
  | [] => f []
  | c :: cs =>
    match f (c :: cs) with
    | some a => some a
    | none => scanOpt f cs

/-- Scan with one character of left context (for negative lookbehind `(?<!\d)`). -/
def scanPrev (f : Option Char → List Char → Bool) : Option Char → List Char → Bool
  | prev, [] => f prev []
  | prev, c :: cs => f prev (c :: cs) || scanPrev f (some c) cs

/-- Maximal run of decimal digits at the head (greedy `\d+`/`\d*`). -/
def takeDigits : List Char → List Char × List Char
  | [] => ([], [])
  | c :: cs =>
    if pyIsDigit c then
      let (d, r) := takeDigits cs
      (c :: d, r)
    else ([], c :: cs)

/-- Collapse every whitespace run into a single space (`re.sub(r"\s+", " ", ·)`). -/
def collapseWsAux : Bool → List Char → List Char
  | _, [] => []
  | inRun, c :: cs =>
    if pyIsSpace c then
      if inRun then collapseWsAux true cs else ' ' :: collapseWsAux true cs
    else c :: collapseWsAux false cs

def collapseWs (s : List Char) : List Char := collapseWsAux false s

/-- First truthy string of a list, `""` if none (Python `a or b or c`). -/
def firstNonEmpty : List String → String
  | [] => ""
  | s :: rest => if s ≠ "" then s else firstNonEmpty rest

/-- Order-preserving de-duplication (models iterating a Python `set` built by
insertion, with iteration order taken to be first-insertion order; no claim
depends on the iteration order of a set). -/
def dedupL (xs : List String) : List String :=
  xs.foldl (fun acc x => if acc.contains x then acc else acc ++ [x]) []

def digitsToNat (ds : List Char) : Nat :=
  ds.foldl (fun acc c => acc * 10 + (c.toNat - '0'.toNat)) 0

/-- Python `float(s)` on plain decimal literals: optional sign, digits with an
optional single point, surrounding whitespace allowed.  The value is returned
exactly as a scaled integer `(m, k)` standing for `m / 10^k` (decimal
literals are exact in this range).  Exponent/`inf`/`nan` forms are not
modelled (no claim exercises them). -/
def pyFloat (s : String) : Option (ℤ × Nat) :=
  let cs := stripL s.data
  let (sign, cs1) : ℤ × List Char :=
    match cs with
    | '-' :: r => (-1, r)
    | '+' :: r => (1, r)
    | r => (1, r)
  let (ip, r1) := takeDigits cs1
  match r1 with
  | [] => if ip = [] then none else some (sign * (digitsToNat ip : ℤ), 0)
  | '.' :: r2 =>
    let (fp, r3) := takeDigits r2
    if r3 = [] then
      if ip = [] && fp = [] then none
      else some (sign * ((digitsToNat ip : ℤ) * 10 ^ fp.length + (digitsToNat fp : ℤ)),
        fp.length)
    else none
  | _ => none

/-- Models `\d+(\.\d+)?` full-match: the token is a plain unsigned number
(`unitless_number_pattern.fullmatch`). -/
def isPlainNumber (s : String) : Bool :=
  let (ip, r1) := takeDigits s.data
  if ip = [] then false
  else
    match r1 with
    | [] => true
    | '.' :: r2 =>
      let (fp, r3) := takeDigits r2
      !fp.isEmpty && r3.isEmpty
    | _ => false

/-! ## Data model

A `Drug` is one parsed candidate-store record (the fields listed in
`return_fields` of `search_handler.py`, after `parse_redis_document` and
score post-processing).  Missing fields are modelled as `""`
(Python `.get(k, '')` / a falsy `None`; the claims only test truthiness
and string content, for which the two coincide).  `indication` is a
display-only return field never read by the pipeline and is omitted. -/

structure Drug where
  ndc : String
  drug_name : String
  brand_name : String
  generic_name : String
  is_generic : String
  dosage_form : String
  dea_schedule : String
  gcn_seqno : String
  drug_class : String
  therapeutic_class : String
  manufacturer_name : String
  indication_key : String
  similarity_score : Option ℚ
  similarity_score_pct : Option ℚ
  search_method : String
  deriving DecidableEq, Repr

/-- One variant entry of a drug group (`group['variants'].append({...})`,
search_handler.py lines 1737-1746). -/
structure Variant where
  ndc : String
  label : String
  dosage_form : String
  strength : String
  manufacturer : String
  is_generic : Bool
  similarity_score : Option ℚ
  dea_schedule : String
  deriving DecidableEq, Repr

/-- A drug family group (`group = {...}`, search_handler.py lines 1702-1718,
plus the finalization fields). -/
structure DrugGroup where
  group_id : String
  display_name : String
  brand_name : String
  generic_name : String
  is_generic : Bool
  gcn_seqno : String
  indication : String
  indication_list : List String
  indication_count : Nat
  dosage_forms : List String
  match_type : String
  match_reason : String
  best_similarity : Option ℚ
  primary_ndc : String
  variants : List Variant
  manufacturer_groups : List (String × List Variant)
  deriving DecidableEq, Repr

/-- A filter mapping, modelled as an association list with at most one entry
per key.  Values are modelled as strings (list-valued filters appear in the
source only through `normalize_tag_values`, which builds store query text
that the oracle absorbs; no claim involves them). -/
def Filters : Type := List (String × String)

instance : DecidableEq Filters := inferInstanceAs (DecidableEq (List (String × String)))

instance : Repr Filters := inferInstanceAs (Repr (List (String × String)))

instance : Membership (String × String) Filters := inferInstanceAs (Membership _ (List _))

/-- Models `filters.get(key)` (first entry wins; construction keeps keys unique). -/
def fget (f : Filters) (k : String) : Option String :=
  (List.find? (fun kv => kv.1 = k) f).map (fun kv => kv.2)

/-! ## Regex models

Each compiled pattern of the source is modelled by a dedicated scanner.
All of them are deterministic: in every pattern a greedy sub-match
(`\d+`, `\s*`, the optional decimal part) is followed by a syntactic class
disjoint from it, so backtracking can never produce a match that the
maximal-munch scan misses. -/

/-- Alternation `(mg|mcg|g|ml|%|unit)` (also used uppercase), case-insensitive,
first alternative wins.  Returns the number of characters consumed and the
rest of the input. -/
def matchUnitAlt (s : List Char) : Option (Nat × List Char) :=
  if startsWithCIL ['m', 'g'] s then some (2, s.drop 2)
  else if startsWithCIL ['m', 'c', 'g'] s then some (3, s.drop 3)
  else if startsWithCIL ['g'] s then some (1, s.drop 1)
  else if startsWithCIL ['m', 'l'] s then some (2, s.drop 2)
  else if startsWithCIL ['%'] s then some (1, s.drop 1)
  else if startsWithCIL ['u', 'n', 'i', 't'] s then some (4, s.drop 4)
  else none

/-- Models `strength_pattern = (\d+(?:\.\d+)?)\s*(mg|mcg|g|ml|%|unit)` (IGNORECASE),
matched at the current position.  Returns (group 1, group 2 uppercased —
the source applies `.group(2).upper()`). -/
def strengthPatternAt (s : List Char) : Option (List Char × String) :=
  let (d1, r1) := takeDigits s
  if d1 = [] then none
  else
    -- optional `(?:\.\d+)?`; if the decimal part matched but the tail fails,
    -- the regex retries without it, which necessarily fails as well (the next
    -- character is then '.', matched by neither `\s*` nor the unit alternation)
    let (num, r2) : List Char × List Char :=
      match r1 with
      | '.' :: rr =>
        let (d2, rrr) := takeDigits rr
        if d2 = [] then (d1, r1) else (d1 ++ '.' :: d2, rrr)
      | _ => (d1, r1)
    let r3 := r2.dropWhile pyIsSpace
    match matchUnitAlt r3 with
    | some (n, _) => some (num, pyUpper (String.mk (r3.take n)))
    | none => none

/-- Models `strength_pattern.search(s)`: leftmost match. -/
def strengthPatternSearch (s : List Char) : Option (List Char × String) :=
  scanOpt strengthPatternAt s

/-- The strength post-filter patterns (search_handler.py lines 975-988):
`(?<!\d)NUM(?!\d)\s*UNIT` for a specific unit, `(?<!\d)NUM(?!\d)\s*[A-Z%]`
for a unitless strength (IGNORECASE), matched at one position with one
character of left context. -/
def strengthValueAt (number : List Char) (unit : Option (List Char)) (prev : Option Char)
    (s : List Char) : Bool :=
  (match prev with
   | some p => !pyIsDigit p
   | none => true) &&
  (match dropPrefixL number s with
   | none => false
   | some rest =>
     (match rest with
      | c :: _ => !pyIsDigit c
      | [] => true) &&
     (let rest2 := rest.dropWhile pyIsSpace
      match unit with
      | some u => startsWithCIL u rest2
      | none =>
        match rest2 with
        | c :: _ => pyIsAlpha c || c = '%'
        | [] => false))

/-- Models `pattern.search(drug_name.upper())` for one `(number, unit)` strength
value (the source uppercases the name before searching). -/
def strengthValueMatch (number : String) (unit : Option String) (name : String) : Bool :=
  scanPrev (strengthValueAt number.data (unit.map (fun u => u.data))) none (upperStr name.data)

/-- Models `BASE[_\s]*NO\.` searched anywhere in the string. -/
def baseNoMatch (s : List Char) : Bool :=
  scanB
    (fun t =>
      match dropPrefixL ['B', 'A', 'S', 'E'] t with
      | none => false
      | some r => startsWithL ['N', 'O', '.'] (r.dropWhile (fun c => c = '_' || pyIsSpace c)))
    s

/-- Models `VEHICLE[_\s]` searched anywhere in the string. -/
def vehicleMatch (s : List Char) : Bool :=
  scanB
    (fun t =>
      match dropPrefixL ['V', 'E', 'H', 'I', 'C', 'L', 'E'] t with
      | none => false
      | some r =>
        match r with
        | c :: _ => c = '_' || pyIsSpace c
        | [] => false)
    s

/-- After the current position, `needle` occurs with no newline before it
(`.` of an uncompiled-DOTALL regex cannot cross a newline). -/
def noNlThen (needle : List Char) : List Char → Bool
  | [] => startsWithL needle []
  | c :: cs => startsWithL needle (c :: cs) || (c ≠ '\n' && noNlThen needle cs)

/-- Models `DIAPER.*DISPOSABLE` searched anywhere in the string. -/
def diaperMatch (s : List Char) : Bool :=
  scanB
    (fun t =>
      match dropPrefixL ['D', 'I', 'A', 'P', 'E', 'R'] t with
      | none => false
      | some r => noNlThen ['D', 'I', 'S', 'P', 'O', 'S', 'A', 'B', 'L', 'E'] r)
    s

/-- Models `generic_base_patterns` (search_handler.py lines 1003-1012) applied to one
(already uppercased) string.  The fully anchored patterns `^X$` are modelled
as string equality (single-line fields). -/
def matchesBasePatterns (s : List Char) : Bool :=
  baseNoMatch s ||
  s = "MENTHOL".data ||
  s = "CAMPHOR".data ||
  s = "GELFILM".data ||
  s = "POLYDIMETHYLSILOXANES".data ||
  diaperMatch s ||
  s = "HYPROMELLOSE".data ||
  vehicleMatch s

/-- A candidate is a non-prescribable compounding base / formulation component:
any of the `generic_base_patterns` matches its uppercased class or name
(search_handler.py lines 1014-1023). -/
def isGenericBase (drug_class drug_name : String) : Bool :=
  matchesBasePatterns (upperStr drug_class.data) || matchesBasePatterns (upperStr drug_name.data)

/-- Models `\s+\d+(\.\d+)?\s*(MG|MCG|G|ML|%|UNIT).*$` (IGNORECASE) matched at the
current position (`.*$` always succeeds on the single-line fields it is
applied to). -/
def strengthSuffixHere (s : List Char) : Bool :=
  let r0 := s.dropWhile pyIsSpace
  if r0.length = s.length then false  -- `\s+` needs at least one space
  else
    let (d1, r1) := takeDigits r0
    if d1 = [] then false
    else
      let r2 : List Char :=
        match r1 with
        | '.' :: rr =>
          let (d2, rrr) := takeDigits rr
          if d2 = [] then r1 else rrr
        | _ => r1
      (matchUnitAlt (r2.dropWhile pyIsSpace)).isSome

/-- Index of the leftmost suffix satisfying `f`, if any. -/
def findSuffixIdx (f : List Char → Bool) : List Char → Option Nat
  | [] => if f [] then some 0 else none
  | c :: cs => if f (c :: cs) then some 0 else (findSuffixIdx f cs).map (fun n => n + 1)

/-- Models `re.sub(r'\s+\d+(\.\d+)?\s*(MG|MCG|G|ML|%|UNIT).*$', '', name).strip() or name`
(display-name cleanup, search_handler.py lines 1681-1685). -/
def cleanDisplayName (s : String) : String :=
  let base : List Char :=
    match findSuffixIdx strengthSuffixHere s.data with
    | none => s.data
    | some i => s.data.take i
  let cleaned := String.mk (stripL base)
  if cleaned = "" then s else cleaned

/-- Models `(\d+(?:\.\d+)?\s*(?:MG|MCG|G|ML|%|UNIT))` (IGNORECASE) at the current
position: the matched text of group 1 (spaces included as they appear). -/
def variantStrengthAt (s : List Char) : Option (List Char) :=
  let (d1, r1) := takeDigits s
  if d1 = [] then none
  else
    let (num, r2) : List Char × List Char :=
      match r1 with
      | '.' :: rr =>
        let (d2, rrr) := takeDigits rr
        if d2 = [] then (d1, r1) else (d1 ++ '.' :: d2, rrr)
      | _ => (d1, r1)
    let sp := r2.takeWhile pyIsSpace
    let r3 := r2.dropWhile pyIsSpace
    match matchUnitAlt r3 with
    | some (n, _) => some (num ++ sp ++ r3.take n)
    | none => none

/-- Strength text extracted from a drug name for a variant entry
(`re.search` + `.group(1).strip()`; the group starts with a digit and ends
with a unit character, so the strip is a no-op on the matched text). -/
def extractVariantStrength (name : String) : String :=
  match scanOpt variantStrengthAt name.data with
  | some txt => String.mk txt
  | none => ""

/-! ## Query interpretation helpers -/

/-- Token characters of `re.findall(r"[a-zA-Z0-9\-\+]+", text.lower())`; the
text is lowercased first, so only the lowercase range can occur. -/
def isTokenChar (c : Char) : Bool :=
  ('a' ≤ c && c ≤ 'z') || pyIsDigit c || c = '-' || c = '+'

/-- Maximal runs of token characters. -/
def tokenizeAux : List Char → List Char → List (List Char)
  | acc, [] => if acc = [] then [] else [acc.reverse]
  | acc, c :: cs =>
    if isTokenChar c then tokenizeAux (c :: acc) cs
    else if acc = [] then tokenizeAux [] cs
    else acc.reverse :: tokenizeAux [] cs

/-- First-occurrence de-duplication stopping at `maxTerms` distinct tokens
(the loop of `extract_search_terms`, break checked after each token). -/
def extractAux (maxTerms : Nat) (seen : List String) : List String → List String
  | [] => seen
  | t :: ts =>
    let seen2 := if seen.contains t then seen else seen ++ [t]
    if maxTerms ≤ seen2.length then seen2 else extractAux maxTerms seen2 ts

/-- Models `extract_search_terms(text, max_terms)` (search_handler.py lines 1411-1421). -/
def extract_search_terms (text : String) (maxTerms : Nat) : List String :=
  if text = "" then []
  else extractAux maxTerms [] ((tokenizeAux [] (lowerStr text.data)).map String.mk)

/-- Models `sanitize_text_term` (lines 1424-1428): collapse whitespace, strip,
`None` when empty. -/
def sanitize_text_term (term : String) : Option String :=
  let cleaned := String.mk (stripL (collapseWs term.data))
  if cleaned = "" then none else some cleaned

/-- The `normalized_terms` output of `build_text_clause` (lines 1431-1454);
the Redis clause itself only shapes the store query and is absorbed by the
store oracle. -/
def normalizeTerms (terms : List String) : List String :=
  terms.filterMap sanitize_text_term

/-- Models `AUTO_APPLY_CLAUDE_FILTERS` (lines 1462-1469). -/
def AUTO_APPLY_CLAUDE_FILTERS : List String :=
  ["dosage_form", "strength", "is_generic", "ndc", "gcn_seqno"]

/-- Models `merge_filters` (lines 1393-1408): allow-listed truthy Claude filters,
overridden by truthy user filters. -/
def merge_filters (user_filters claude_filters : Filters) : Filters :=
  let c := List.filter
    (fun kv : String × String => AUTO_APPLY_CLAUDE_FILTERS.contains kv.1 && kv.2 ≠ "") claude_filters
  let u := List.filter (fun kv : String × String => kv.2 ≠ "") user_filters
  List.filter (fun kv : String × String => !u.any (fun uv => uv.1 = kv.1)) c ++ u

/-- Models `DOSAGE_FORM_TERMS` (lines 590-595). -/
def DOSAGE_FORM_TERMS : List String :=
  ["cream", "gel", "tablet", "capsule", "injection", "liquid", "solution",
   "powder", "patch", "spray", "inhaler", "vial", "ampule", "suppository",
   "lotion", "ointment", "drops", "syrup", "suspension", "pellet",
   "syringe", "cartridge", "injectable"]

/-- The unit-only tokens skipped by the lexical-gate loop (line 662). -/
def UNIT_ONLY_TERMS : List String := ["mg", "mcg", "g", "ml", "unit", "units", "%"]

/-- Python `term.isdigit()` (ASCII data). -/
def pyIsDigitStr (t : String) : Bool := t ≠ "" && t.data.all pyIsDigit

/-- The `drug_name_terms` selection of `redis_hybrid_search` (lines 651-670):
terms longer than 2 characters that are not dosage-form words, unit-only
words or pure numbers.  These feed only the lexical gate of the store query
(absorbed by the store oracle). -/
def drug_name_terms_of (normalizedOriginal : List String) : List String :=
  normalizedOriginal.filter
    (fun t =>
      t ≠ "" && 2 < t.length &&
      !DOSAGE_FORM_TERMS.contains (pyLower t) &&
      !UNIT_ONLY_TERMS.contains (pyLower t) &&
      !pyIsDigitStr t)

/-- Models `0.001 <= m/10^k <= 10000`, decided on the exact scaled representation. -/
def inStrengthRange (t : String) : Bool :=
  match pyFloat t with
  | some (m, k) => (10 : ℤ) ^ k ≤ m * 1000 && m ≤ 10000 * 10 ^ k
  | none => false

/-- Parsing the `strength` filter value (lines 605-632): `strength_pattern`
search first, falling back to a plain number in [0.001, 10000]. -/
def parseStrengthSetting (strength : String) : List (String × Option String) :=
  let s := pyStrip strength
  match strengthPatternSearch s.data with
  | some (num, unit) => [(String.mk num, some unit)]
  | none => if inStrengthRange s then [(s, none)] else []

/-- Models `strength_values` of `redis_hybrid_search` (lines 597-649): parse the
`strength` filter, then — only when that produced nothing — collect unitless
numeric tokens of the normalized original terms in the same range. -/
def strengthValuesOf (filters : Filters) (normalizedOriginal : List String) :
    List (String × Option String) :=
  let sv0 :=
    match fget filters "strength" with
    | some s => parseStrengthSetting s
    | none => []
  if sv0 ≠ [] then sv0
  else
    (normalizedOriginal.filter (fun t => isPlainNumber t && inStrengthRange t)).map
      (fun t => (t, none))

/-- The strength post-filter (lines 970-999): when strength values were
extracted, keep only drugs whose name matches at least one pattern. -/
def strengthPostFilter (svs : List (String × Option String)) (drugs : List Drug) : List Drug :=
  if svs.isEmpty then drugs
  else drugs.filter (fun d => svs.any (fun p => strengthValueMatch p.1 p.2 d.drug_name))

/-! ## Anchor detection and class expansion -/

/-- The lowercased name corpus of a candidate (lines 800-804). -/
def drugCorpus (d : Drug) : List Char :=
  lowerStr d.drug_name.data ++ ' ' :: lowerStr d.brand_name.data ++ ' ' ::
    lowerStr d.generic_name.data

/-- A candidate is an exact-match anchor for the given terms: some truthy term
is a case-insensitive substring of its name corpus (line 807). -/
def isAnchor (terms : List String) (d : Drug) : Bool :=
  terms.any (fun t => t ≠ "" && containsSubL (lowerStr t.data) (drugCorpus d))

/-- Union of the anchors' stripped, truthy `drug_class` values
(lines 798-815 / 1246-1261). -/
def anchorDrugClasses (terms : List String) (drugs : List Drug) : List String :=
  dedupL (((drugs.filter (isAnchor terms)).map (fun d => pyStrip d.drug_class)).filter
    (fun s => s ≠ ""))

/-- Union of the anchors' stripped, truthy `therapeutic_class` values. -/
def anchorTherapeuticClasses (terms : List String) (drugs : List Drug) : List String :=
  dedupL (((drugs.filter (isAnchor terms)).map (fun d => pyStrip d.therapeutic_class)).filter
    (fun s => s ≠ ""))

/-- Models `THERAPEUTIC_CLASS_BLACKLIST` (lines 888-893 / 1326-1331). -/
def THERAPEUTIC_CLASS_BLACKLIST : List String :=
  ["Bulk Chemicals", "Miscellaneous", "Uncategorized", "Not Specified"]

/-- An expansion result is merged with cleared similarity and its provenance
method (lines 876-879 / 960-963). -/
def markExpansion (method : String) (d : Drug) : Drug :=
  { d with similarity_score := none, similarity_score_pct := none, search_method := method }

/-- Merge expansion-query results into the accumulated list, skipping
identifiers already present (`existing_ndcs`; a missing identifier is `""`
and de-duplicates like any other value, as `None` does in the source set). -/
def expandMerge (method : String) : List Drug → List Drug → List Drug
  | acc, [] => acc
  | acc, d :: ds =>
    if acc.any (fun e => e.ndc = d.ndc) then expandMerge method acc ds
    else expandMerge method (acc ++ [markExpansion method d]) ds

/-- The observable external calls of the pipeline. -/
inductive ExtCall where
  | claude (query : String)
  | embed (text : String)
  | knnSearch
  | dcExpand (classes : List String)
  | tcExpand (classes : List String)
  deriving DecidableEq, Repr

/-- The pharmacologic (`drug_class`) expansion step (lines 821-884 /
1280-1323): when any anchor drug class was found, issue one store query and
merge its results with provenance `drug_class_filter`. -/
def dcExpansionStep (drugs : List Drug) (dcs : List String) (store : List Drug) :
    List Drug × List ExtCall :=
  if dcs.isEmpty then (drugs, [])
  else (expandMerge "drug_class_filter" drugs store, [ExtCall.dcExpand dcs])

/-- The therapeutic (`therapeutic_class`) expansion step (lines 886-968 /
1325-1384): remove denylisted classes first; when any class survives, issue
one store query and merge its results with provenance
`therapeutic_class_filter`; otherwise issue no query and leave the candidate
set unchanged. -/
def tcExpansionStep (drugs : List Drug) (tcs : List String) (store : List Drug) :
    List Drug × List ExtCall :=
  let filtered := tcs.filter (fun tc => !THERAPEUTIC_CLASS_BLACKLIST.contains tc)
  if filtered.isEmpty then (drugs, [])
  else (expandMerge "therapeutic_class_filter" drugs store, [ExtCall.tcExpand filtered])

/-! ## Result grouping (`group_search_results`, lines 1571-1804) -/

/-- Models `classify_match_type` (lines 1807-1834).  `tokens` arrive already
lowercased from the caller. -/
def classify_match_type (d : Drug) (tokens : List String) (requestedNdc : Option String) :
    String × String :=
  if (match requestedNdc with
      | some r => r ≠ "" && d.ndc = r
      | none => false) then
    ("exact", "Matches requested NDC")
  else
    match tokens.find? (fun t => t ≠ "" && containsSubL t.data (drugCorpus d)) with
    | some t => ("exact", "Name contains \"" ++ t ++ "\"")
    | none =>
      if tokens.isEmpty then ("exact", "No lexical tokens provided")
      else if d.search_method = "filter" then ("alternative", "Therapeutic class match")
      else ("alternative", "Semantic similarity match")

/-- Models `str(doc.get('is_generic', 'true')).lower() == 'false'` (lines 1627-1628). -/
def isBrandedProduct (d : Drug) : Bool := pyLower d.is_generic = "false"

/-- The composite group key (lines 1630-1643). -/
def groupKeyOf (d : Drug) : String :=
  if isBrandedProduct d then "brand:" ++ pyStrip d.brand_name
  else
    let dc := pyStrip d.drug_class
    if dc ≠ "" then "generic:" ++ dc
    else "generic:" ++ firstNonEmpty [pyStrip d.generic_name, pyStrip d.drug_name, d.ndc]

/-- Split on the literal separator `' | '` (Python `indication.split(' | ')`). -/
def splitIndAux (acc : List Char) : List Char → List (List Char)
  | [] => [acc.reverse]
  | ' ' :: '|' :: ' ' :: rest => acc.reverse :: splitIndAux [] rest
  | c :: cs => splitIndAux (c :: acc) cs

def splitIndications (s : String) : List String :=
  if s = "" then [] else (splitIndAux [] s.data).map String.mk

/-- Group creation (lines 1650-1720): match classification from provenance,
display name, indication fetched from the separate indication store
(`redis_client.get`, modelled by the `indicStore` oracle). -/
def newGroup (indicStore : String → Option String) (loweredOriginal : List String)
    (requestedNdc : Option String) (key : String) (d : Drug) : DrugGroup :=
  let branded := isBrandedProduct d
  let (mt, mr, sim) : String × String × Option ℚ :=
    if d.search_method = "drug_class_filter" then ("pharmacologic", "Drug class match", none)
    else if d.search_method = "therapeutic_class_filter" then
      ("therapeutic_alternative", "Therapeutic alternative class match", none)
    else if d.search_method = "filter" then
      ("therapeutic_alternative", "Therapeutic class match", none)
    else
      let c := classify_match_type d loweredOriginal requestedNdc
      (c.1, c.2, d.similarity_score_pct)
  let display : String :=
    if branded && pyStrip d.brand_name ≠ "" then pyStrip d.brand_name
    else
      let dn0 := firstNonEmpty [d.drug_class, d.generic_name, d.drug_name]
      if dn0 = "" then dn0 else cleanDisplayName dn0
  let ind : String :=
    if d.indication_key ≠ "" then (indicStore d.indication_key).getD "" else ""
  let indList := splitIndications ind
  { group_id := key
    display_name := display
    brand_name := d.brand_name
    generic_name := d.drug_class
    is_generic := !branded
    gcn_seqno := d.gcn_seqno
    indication := ind
    indication_list := indList
    indication_count := indList.length
    dosage_forms := []
    match_type := mt
    match_reason := mr
    best_similarity := sim
    primary_ndc := d.ndc
    variants := []
    manufacturer_groups := [] }

/-- Existing-group update (lines 1721-1726): a scored candidate raises the
running best similarity and promotes the representative identifier. -/
def bumpSimilarity (g : DrugGroup) (d : Drug) : DrugGroup :=
  match d.similarity_score_pct with
  | none => g
  | some s =>
    let better :=
      match g.best_similarity with
      | none => true
      | some b => b < s
    if better then
      { g with
          best_similarity := some s
          primary_ndc := if d.ndc ≠ "" then d.ndc else g.primary_ndc }
    else g

/-- Shared tail of both branches (lines 1728-1729): record the dosage form. -/
def addDosageForm (g : DrugGroup) (d : Drug) : DrugGroup :=
  if d.dosage_form ≠ "" then
    { g with
        dosage_forms :=
          if g.dosage_forms.contains d.dosage_form then g.dosage_forms
          else g.dosage_forms ++ [d.dosage_form] }
  else g

/-- The variant entry built for a candidate (lines 1737-1746). -/
def mkVariant (d : Drug) : Variant :=
  { ndc := d.ndc
    label := firstNonEmpty [d.drug_name, d.brand_name, d.generic_name]
    dosage_form := d.dosage_form
    strength := extractVariantStrength d.drug_name
    manufacturer := d.manufacturer_name
    is_generic := pyLower d.is_generic = "true"
    similarity_score := d.similarity_score_pct
    dea_schedule := d.dea_schedule }

def addVariant (g : DrugGroup) (d : Drug) : DrugGroup :=
  { g with variants := g.variants ++ [mkVariant d] }

/-- Process one candidate of PASS 2 (lines 1620-1746): create its group or
update the existing one (the Python `index` aliases the dict held in
`groups`; modelled by in-place replacement in the ordered list). -/
def insertDoc (indicStore : String → Option String) (loweredOriginal : List String)
    (requestedNdc : Option String) (gs : List DrugGroup) (d : Drug) : List DrugGroup :=
  let key := groupKeyOf d
  if gs.any (fun g => g.group_id = key) then
    gs.map (fun g =>
      if g.group_id = key then addVariant (addDosageForm (bumpSimilarity g d) d) d else g)
  else
    gs ++ [addVariant (addDosageForm (newGroup indicStore loweredOriginal requestedNdc key d) d) d]

/-- String order used by Python `sorted` on these ASCII fields. -/
def strLe (a b : String) : Prop := a ≤ b

instance : DecidableRel strLe := fun a b => inferInstanceAs (Decidable (a ≤ b))

instance : IsTotal String strLe := ⟨fun a b => le_total a b⟩

instance : IsTrans String strLe := ⟨fun _ _ _ h1 h2 => le_trans h1 h2⟩

/-- Models `variant.get('manufacturer', ...).strip() or 'Unknown Manufacturer'`
(line 1758). -/
def variantMfr (v : Variant) : String :=
  let m := pyStrip v.manufacturer
  if m = "" then "Unknown Manufacturer" else m

/-- Finalization (lines 1748-1778): sort the dosage-form set, bucket variants
by manufacturer with manufacturers in sorted order (`sorted(mfr_groups.items())`
compares by the distinct keys). -/
def finalizeGroup (g : DrugGroup) : DrugGroup :=
  let forms := List.insertionSort strLe g.dosage_forms
  let mfrs := List.insertionSort strLe (dedupL (g.variants.map variantMfr))
  { g with
      dosage_forms := forms
      manufacturer_groups :=
        mfrs.map (fun m => (m, g.variants.filter (fun v => variantMfr v = m))) }

/-- Models `sort_key`'s classification priority (lines 1788-1794):
`exact` 0, `pharmacologic` 1, `therapeutic_alternative` 2, anything else 3. -/
def match_priority (mt : String) : Nat :=
  if mt = "exact" then 0
  else if mt = "pharmacologic" then 1
  else if mt = "therapeutic_alternative" then 2
  else 3

/-- The similarity component of `sort_key` (line 1798): ascending rank equals
descending similarity, with a missing similarity ranked `⊤` (the source's
`-(−∞) = +∞`), i.e. worst within its tier. -/
def simRank (s : Option ℚ) : WithTop ℚ :=
  match s with
  | none => ⊤
  | some q => ((-q : ℚ) : WithTop ℚ)

/-- The total preorder realized by Python's ascending sort on
`(type_priority, similarity_sort)` tuples. -/
def groupLE (g1 g2 : DrugGroup) : Prop :=
  match_priority g1.match_type < match_priority g2.match_type ∨
    (match_priority g1.match_type = match_priority g2.match_type ∧
      simRank g1.best_similarity ≤ simRank g2.best_similarity)

instance : DecidableRel groupLE := fun g1 g2 => inferInstanceAs (Decidable (_ ∨ _ ∧ _))

instance : IsTotal DrugGroup groupLE :=
  ⟨fun g1 g2 => by
    unfold groupLE
    rcases Nat.lt_trichotomy (match_priority g1.match_type) (match_priority g2.match_type) with
      h | h | h
    · exact Or.inl (Or.inl h)
    · rcases le_total (simRank g1.best_similarity) (simRank g2.best_similarity) with h2 | h2
      · exact Or.inl (Or.inr ⟨h, h2⟩)
      · exact Or.inr (Or.inr ⟨h.symm, h2⟩)
    · exact Or.inr (Or.inl h)⟩

instance : IsTrans DrugGroup groupLE :=
  ⟨fun g1 g2 g3 h12 h23 => by
    unfold groupLE at *
    rcases h12 with h12 | ⟨e12, s12⟩
    · rcases h23 with h23 | ⟨e23, _⟩
      · exact Or.inl (lt_trans h12 h23)
      · exact Or.inl (e23 ▸ h12)
    · rcases h23 with h23 | ⟨e23, s23⟩
      · exact Or.inl (e12 ▸ h23)
      · exact Or.inr ⟨e12.trans e23, le_trans s12 s23⟩⟩

/-- PASS 1 of the grouper (lines 1597-1617): therapeutic classes of
candidates matching the original or Claude terms.  The source computes this
set and never reads it afterwards; it is embedded for completeness. -/
def pass1TherapeuticClasses (drugs : List Drug) (loweredOriginal loweredClaude : List String) :
    List String :=
  dedupL (((drugs.filter (fun d =>
      isAnchor loweredOriginal d || isAnchor loweredClaude d)).map
    (fun d => pyStrip d.therapeutic_class)).filter (fun s => s ≠ ""))

/-- Models `group_search_results` (lines 1571-1804): lowercase the term lists, read
a requested identifier from the filters, fold the candidates into ordered
groups, finalize each group, and sort by `(classification, -similarity)`
(Python's stable ascending sort, realized by the stable `insertionSort`). -/
def group_search_results (drugs : List Drug) (original_terms claude_terms : List String)
    (filters : Filters) (indicStore : String → Option String) : List DrugGroup :=
  let loweredOriginal := original_terms.map pyLower
  let requestedNdc := fget filters "ndc"
  let built := drugs.foldl (insertDoc indicStore loweredOriginal requestedNdc) []
  List.insertionSort groupLE (built.map finalizeGroup)

/-! ## Hybrid search (`redis_hybrid_search`, lines 547-1070)

The candidate store is an oracle: `vectorResults` models the parsed
documents of the KNN query (score transformation included upstream of the
modelled stages), `dcResults` / `tcResults` the parsed documents of the two
expansion queries, `indicStore` the side indication store, and
`fail = some e` a raised exception (the source's `except` branch). -/

structure HybridStore where
  fail : Option String
  vectorResults : List Drug
  dcResults : List Drug
  tcResults : List Drug
  indicStore : String → Option String

/-- The expansion-debug fields the handler returns to the caller
(`expansion_debug`, lines 792-796 / 818-819 / 905). -/
structure ExpansionDebug where
  drug_classes_found : List String
  therapeutic_classes_found_filtered : List String
  deriving DecidableEq, Repr

def emptyDebug : ExpansionDebug := ⟨[], []⟩

/-- The structured result dict of the search functions. -/
structure SearchOutcome where
  success : Bool
  error : String
  groups : List DrugGroup
  raw_results : List Drug
  text_terms : List String
  message : Option String
  expansion_debug : ExpansionDebug
  deriving DecidableEq, Repr

/-- Parsed vector hits are tagged with vector provenance (line 781 / 1198). -/
def markVector (d : Drug) : Drug := { d with search_method := "vector" }

def redis_hybrid_search (store : HybridStore) (original_terms claude_terms : List String)
    (filters : Filters) (limit : Int) : SearchOutcome × List ExtCall :=
  match store.fail with
  | some e =>
    ({ success := false, error := e, groups := [], raw_results := [], text_terms := [],
       message := none, expansion_debug := emptyDebug }, [ExtCall.knnSearch])
  | none =>
    let normalized_original := normalizeTerms original_terms
    let normalized_claude := normalizeTerms claude_terms
    let strength_values := strengthValuesOf filters normalized_original
    let drugs0 := store.vectorResults.map markVector
    let dcs := anchorDrugClasses original_terms drugs0
    let tcs := anchorTherapeuticClasses original_terms drugs0
    let step1 := dcExpansionStep drugs0 dcs store.dcResults
    let step2 := tcExpansionStep step1.1 tcs store.tcResults
    let drugs3 := strengthPostFilter strength_values step2.1
    let drugs4 := drugs3.filter (fun d => !isGenericBase d.drug_class d.drug_name)
    let groups := group_search_results drugs4 normalized_original normalized_claude filters
      store.indicStore
    ({ success := true
       error := ""
       groups := groups
       raw_results := drugs4
       text_terms := normalized_original
       message := if groups.isEmpty then some "No results found for the provided criteria."
         else none
       expansion_debug :=
         { drug_classes_found := dcs
           therapeutic_classes_found_filtered :=
             tcs.filter (fun tc => !THERAPEUTIC_CLASS_BLACKLIST.contains tc) } },
     ExtCall.knnSearch :: (step1.2 ++ step2.2))

/-! ## Multi-concept path (lines 118-210 and `perform_drug_expansion`) -/

/-- The store oracle of `perform_drug_expansion` (lines 1215-1390);
`fail = true` models the `except` branch, which returns the initial list. -/
structure ExpansionStore where
  fail : Bool
  dcResults : List Drug
  tcResults : List Drug

def perform_drug_expansion (store : ExpansionStore) (initial_drugs : List Drug)
    (original_terms claude_terms : List String) (filters : Filters) :
    List Drug × List ExtCall :=
  if store.fail then (initial_drugs, [])
  else
    let dcs := anchorDrugClasses original_terms initial_drugs
    let tcs := anchorTherapeuticClasses original_terms initial_drugs
    let step1 := dcExpansionStep initial_drugs dcs store.dcResults
    let step2 := tcExpansionStep step1.1 tcs store.tcResults
    (step2.1, step1.2 ++ step2.2)

structure EmbedResult where
  success : Bool
  error : String
  deriving DecidableEq, Repr

/-- The structured object the handler derives from the language-understanding
response (`expand_query_with_claude`, lines 320-360; the defensive JSON
parsing is absorbed by the oracle, which provides the parsed fields). -/
structure ClaudeStructured where
  search_text : String
  filters : Filters
  corrections : List String
  search_terms : List String
  deriving DecidableEq, Repr

structure ClaudeResult where
  success : Bool
  error : String
  content : String
  structured : ClaudeStructured
  deriving DecidableEq, Repr

/-- The final search-terms fallback of `expand_query_with_claude`
(lines 356-357): tokenize the search text when the collaborator returned no
terms. -/
def claudeStructuredOf (c : ClaudeResult) : ClaudeStructured :=
  let st := c.structured
  if st.search_terms.isEmpty then
    { st with search_terms := extract_search_terms st.search_text 8 }
  else st

/-- All collaborator/store behaviour for one request. -/
structure Oracle where
  claude : ClaudeResult
  embed : String → EmbedResult
  vectorOnly : String → Option (List Drug)
  expansion : ExpansionStore
  hybrid : HybridStore
  multiIndic : String → Option String

/-- The interpreted-query values the handler derives before retrieval
(lines 76-120). -/
structure Interp where
  expanded_query : String
  claude_terms : List String
  original_terms : List String
  corrections : List String
  exact_match_terms : List String
  merged_filters : Filters
  drug_terms : List String

def interpret (c : ClaudeResult) (q : String) (user_filters : Filters) : Interp :=
  let structured := claudeStructuredOf c
  let expanded_query := firstNonEmpty [structured.search_text, c.content, q]
  let claude_terms0 := structured.search_terms
  let claude_terms :=
    if claude_terms0.isEmpty then extract_search_terms expanded_query 8 else claude_terms0
  let original_terms := extract_search_terms q 8
  let corrections := structured.corrections
  let exact_match_terms :=
    if !corrections.isEmpty && claude_terms.length ≤ original_terms.length + 2 then claude_terms
    else if !claude_terms.isEmpty && expanded_query ≠ q then claude_terms
    else original_terms
  { expanded_query := expanded_query
    claude_terms := claude_terms
    original_terms := original_terms
    corrections := corrections
    exact_match_terms := exact_match_terms
    merged_filters := merge_filters user_filters structured.filters
    drug_terms := claude_terms.filter (fun t => 3 < t.length) }

/-- Merge one per-term result into the accumulated vector results: only
truthy identifiers not seen before are added (lines 151-156). -/
def addVectorResult (ds : List Drug) (r : Drug) : List Drug :=
  if r.ndc ≠ "" && ds.all (fun e => e.ndc ≠ r.ndc) then ds ++ [r] else ds

/-- One iteration of the per-drug loop (lines 135-157): embed the term (a
failure skips the term), run the vector-only search (parsed hits tagged with
vector provenance, a failed search contributes nothing), merge the results. -/
def multiStep (o : Oracle) (acc : List Drug × List ExtCall) (t : String) :
    List Drug × List ExtCall :=
  let tr1 := acc.2 ++ [ExtCall.embed t]
  if !(o.embed t).success then (acc.1, tr1)
  else
    match o.vectorOnly t with
    | none => (acc.1, tr1 ++ [ExtCall.knnSearch])
    | some rs => ((rs.map markVector).foldl addVectorResult acc.1, tr1 ++ [ExtCall.knnSearch])

/-- Phase 1 of the multi-concept path (lines 131-161). -/
def multiPhase1 (o : Oracle) (terms : List String) : List Drug × List ExtCall :=
  terms.foldl (multiStep o) ([], [])

/-! ## Lambda handler (lines 32-317) -/

structure Request where
  query : Option String
  user_filters : Filters
  max_results : Option Int
  deriving DecidableEq

/-- The externally visible response body fields the claims refer to
(query echo, metrics and cost fields omitted — display only). -/
structure Response where
  statusCode : Nat
  success : Bool
  error : String
  results : List DrugGroup
  raw_results : List Drug
  total_results : Nat
  message : Option String
  expansion_debug : ExpansionDebug
  deriving DecidableEq, Repr

/-- Models `error_response` (lines 1837-1850). -/
def error_response (status : Nat) (message : String) : Response :=
  { statusCode := status, success := false, error := message, results := [], raw_results := [],
    total_results := 0, message := none, expansion_debug := emptyDebug }

/-- Python `list[:n]` (negative stop counts from the end, clamped at 0). -/
def pySliceTo (n : Int) (l : List α) : List α :=
  if 0 ≤ n then l.take n.toNat else l.take (l.length - (-n).toNat)

/-- Lines 239-241: truncate the grouped results to the requested cap. -/
def truncateResults (gs : List DrugGroup) (maxResults : Int) : List DrugGroup :=
  if (gs.length : Int) > maxResults then pySliceTo maxResults gs else gs

def mk200 (results : List DrugGroup) (raw : List Drug) (message : Option String)
    (dbg : ExpansionDebug) : Response :=
  { statusCode := 200, success := true, error := "", results := results, raw_results := raw,
    total_results := results.length, message := message, expansion_debug := dbg }

/-- Models `lambda_handler` (lines 32-317), returning the response and the trace of
external calls it issued. -/
def lambda_handler (req : Request) (o : Oracle) : Response × List ExtCall :=
  match req.query with
  | none => (error_response 400 "Missing required field: query", [])
  | some q =>
    if q = "" then (error_response 400 "Missing required field: query", [])
    else
      let max_results : Int := req.max_results.getD 20
      if max_results > 100 then (error_response 400 "max_results cannot exceed 100", [])
      else
        let trace0 := [ExtCall.claude q]
        if !o.claude.success then
          (error_response 500 ("Claude preprocessing failed: " ++ o.claude.error), trace0)
        else
          let itp := interpret o.claude q req.user_filters
          if 3 ≤ itp.drug_terms.length then
            -- multi-drug search (lines 122-210)
            let phase1 := multiPhase1 o itp.drug_terms
            let phase2 := perform_drug_expansion o.expansion phase1.1 itp.exact_match_terms
              itp.claude_terms itp.merged_filters
            let grouped := group_search_results phase2.1 itp.exact_match_terms itp.claude_terms
              itp.merged_filters o.multiIndic
            (mk200 (truncateResults grouped max_results) phase2.1 none emptyDebug,
             trace0 ++ phase1.2 ++ phase2.2)
          else
            -- single-concept search (lines 212-230)
            let tr1 := trace0 ++ [ExtCall.embed itp.expanded_query]
            let er := o.embed itp.expanded_query
            if !er.success then
              (error_response 500 ("Embedding generation failed: " ++ er.error), tr1)
            else
              let sr := redis_hybrid_search o.hybrid itp.exact_match_terms itp.claude_terms
                itp.merged_filters (max_results * 3)
              if !sr.1.success then
                (error_response 500 ("Redis search failed: " ++ sr.1.error), tr1 ++ sr.2)
              else
                (mk200 (truncateResults sr.1.groups max_results) sr.1.raw_results sr.1.message
                  sr.1.expansion_debug, tr1 ++ sr.2)

/-- Embedding-call payloads of a trace, in order. -/
def embedTexts (tr : List ExtCall) : List String :=
  tr.filterMap (fun c =>
    match c with
    | ExtCall.embed t => some t
    | _ => none)

/-! ## Spec-side comparison definition -/

/-- The spec's notion (§4.3) of a "drug-like" term: a term longer than 3
characters *after removing dosage-form, unit and pure-numeric tokens*.
This definition follows the spec's words (with the source's own
dosage-form/unit vocabularies), to be compared against the source's
`drug_terms` selection, which filters by length alone. -/
def specDrugLikeTerms (terms : List String) : List String :=
  (terms.filter (fun t =>
    !DOSAGE_FORM_TERMS.contains (pyLower t) &&
    !UNIT_ONLY_TERMS.contains (pyLower t) &&
    !pyIsDigitStr t)).filter (fun t => 3 < t.length)

/-! ## Concrete fixtures used by witnesses and counterexamples -/

def drugCrestor : Drug :=
  { ndc := "00310075190", drug_name := "CRESTOR 10 MG TABLET", brand_name := "CRESTOR",
    generic_name := "rosuvastatin calcium", is_generic := "false", dosage_form := "TABLET",
    dea_schedule := "", gcn_seqno := "12345", drug_class := "ROSUVASTATIN CALCIUM",
    therapeutic_class := "Antihyperlipidemics", manufacturer_name := "ASTRAZENECA",
    indication_key := "", similarity_score := none, similarity_score_pct := some 97,
    search_method := "" }

def drugRosuGeneric : Drug :=
  { ndc := "55555001", drug_name := "ROSUVASTATIN CALCIUM 20 MG TABLET", brand_name := "",
    generic_name := "rosuvastatin calcium", is_generic := "true", dosage_form := "TABLET",
    dea_schedule := "", gcn_seqno := "22345", drug_class := "ROSUVASTATIN CALCIUM",
    therapeutic_class := "Antihyperlipidemics", manufacturer_name := "SANDOZ",
    indication_key := "", similarity_score := none, similarity_score_pct := none,
    search_method := "" }

def drugMenthol : Drug :=
  { ndc := "77700001", drug_name := "MENTHOL", brand_name := "", generic_name := "menthol",
    is_generic := "true", dosage_form := "CRYSTALS", dea_schedule := "", gcn_seqno := "33333",
    drug_class := "MENTHOL", therapeutic_class := "Bulk Chemicals",
    manufacturer_name := "LETCO MEDICAL", indication_key := "", similarity_score := none,
    similarity_score_pct := some 92, search_method := "" }

def claudeCrestor : ClaudeResult :=
  { success := true, error := "", content := "crestor",
    structured := { search_text := "crestor", filters := [],
                    corrections := ["crester → crestor"], search_terms := ["crestor"] } }

def storeCrestor : HybridStore :=
  { fail := none, vectorResults := [drugCrestor], dcResults := [drugRosuGeneric],
    tcResults := [], indicStore := fun _ => none }

def oracleCrestor : Oracle :=
  { claude := claudeCrestor, embed := fun _ => { success := true, error := "" },
    vectorOnly := fun _ => some [],
    expansion := { fail := false, dcResults := [], tcResults := [] },
    hybrid := storeCrestor, multiIndic := fun _ => none }

def reqCrestor : Request := { query := some "crester", user_filters := [], max_results := some 20 }

/-- An oracle whose collaborators all succeed and whose stores are empty. -/
def oracleNeutral : Oracle :=
  { claude :=
      { success := true, error := "", content := "",
        structured := { search_text := "", filters := [], corrections := [], search_terms := [] } }
    embed := fun _ => { success := true, error := "" }
    vectorOnly := fun _ => some []
    expansion := { fail := false, dcResults := [], tcResults := [] }
    hybrid := { fail := none, vectorResults := [], dcResults := [], tcResults := [],
                indicStore := fun _ => none }
    multiIndic := fun _ => none }

/-! ## Claim theorems -/

/-- Claim C1: For every candidate list passed to the grouper, the returned group
list is sorted by `(classification_priority, -best_similarity)`: consecutive
(and hence, by transitivity of the pairwise relation, all) earlier groups
compare `≤` to later groups in the lexicographic order whose first component
is `match_priority` (`exact` = 0 < `pharmacologic` = 1 <
`therapeutic_alternative` = 2 < any other classification = 3) and whose
second component is `simRank` (ascending rank = descending best similarity,
with a missing similarity ranked `⊤`, i.e. worst within its tier).  In
particular no `pharmacologic` group can precede an `exact` group, no
`therapeutic_alternative` group can precede either, every other
classification comes last, and within one tier a group with no similarity
never precedes one with a similarity score. -/
theorem grouper_sorted_by_priority_then_similarity (drugs : List Drug)
    (original_terms claude_terms : List String) (filters : Filters)
    (indicStore : String → Option String) :
    (group_search_results drugs original_terms claude_terms filters indicStore).Pairwise
      (fun g1 g2 =>
        match_priority g1.match_type < match_priority g2.match_type ∨
          (match_priority g1.match_type = match_priority g2.match_type ∧
            simRank g1.best_similarity ≤ simRank g2.best_similarity)) :=
  List.sorted_insertionSort groupLE
    ((drugs.foldl (insertDoc indicStore (original_terms.map pyLower)
      (fget filters "ndc")) []).map finalizeGroup)

/-- Claim C6: If every therapeutic class collected from the anchors is in the
fixed denylist, the therapeutic-expansion step (invoked by both
`redis_hybrid_search` and `perform_drug_expansion`) issues no store query
and leaves the candidate set unchanged. -/
theorem denylisted_therapeutic_expansion_is_noop (drugs : List Drug) (tcs : List String)
    (store : List Drug) (h : ∀ tc ∈ tcs, tc ∈ THERAPEUTIC_CLASS_BLACKLIST) :
    tcExpansionStep drugs tcs store = (drugs, []) := by
  unfold tcExpansionStep
  have hfil : tcs.filter (fun tc => !THERAPEUTIC_CLASS_BLACKLIST.contains tc) = [] := by
    rw [List.filter_eq_nil_iff]
    intro a ha
    simpa using h a ha
  simp [hfil]
  exact h

/-- Witness for C6: an anchor set whose only therapeutic class is
`Miscellaneous` triggers no expansion query and changes nothing. -/
theorem denylisted_therapeutic_expansion_witness :
    (∀ tc ∈ ["Miscellaneous"], tc ∈ THERAPEUTIC_CLASS_BLACKLIST) ∧
      tcExpansionStep [drugCrestor] ["Miscellaneous"] [drugRosuGeneric] = ([drugCrestor], []) :=
  ⟨by decide, denylisted_therapeutic_expansion_is_noop _ _ _ (by decide)⟩

/-- Claim C7: A request with a missing/empty query, or with `max_results`
above 100, is rejected with status 400 before any external call: the call
trace is empty (and the response is therefore independent of every
collaborator), so the request has no side effects. -/
theorem validation_rejects_before_any_external_call (req : Request) (o : Oracle)
    (h : req.query = none ∨ req.query = some "" ∨ 100 < req.max_results.getD 20) :
    (lambda_handler req o).1.statusCode = 400 ∧ (lambda_handler req o).2 = [] := by
  rcases h with h | h | h
  · simp [lambda_handler, h, error_response]
  · simp [lambda_handler, h, error_response]
  · cases hq : req.query with
    | none => simp [lambda_handler, hq, error_response]
    | some q =>
      by_cases hq2 : q = ""
      · simp [lambda_handler, hq, hq2, error_response]
      · simp [lambda_handler, hq, hq2, error_response, h]

/-- Witness for C7: a request with no query is rejected with 400 and an
empty call trace. -/
theorem validation_rejects_witness :
    ((⟨none, [], some 20⟩ : Request).query = none ∨
        (⟨none, [], some 20⟩ : Request).query = some "" ∨
        100 < (⟨none, [], some 20⟩ : Request).max_results.getD 20) ∧
      (lambda_handler ⟨none, [], some 20⟩ oracleNeutral).1.statusCode = 400 ∧
      (lambda_handler ⟨none, [], some 20⟩ oracleNeutral).2 = [] :=
  ⟨Or.inl rfl, validation_rejects_before_any_external_call _ oracleNeutral (Or.inl rfl)⟩

/-- The merged-vector-set invariant: all identifiers truthy and pairwise
distinct. -/
def ndcInvariant (ds : List Drug) : Prop :=
  (∀ d ∈ ds, d.ndc ≠ "") ∧ (ds.map (fun d => d.ndc)).Nodup

theorem addVectorResult_invariant (ds : List Drug) (r : Drug) (h : ndcInvariant ds) :
    ndcInvariant (addVectorResult ds r) := by
  unfold addVectorResult
  by_cases hc : r.ndc ≠ "" && ds.all (fun e => e.ndc ≠ r.ndc)
  · simp only [hc, if_true]
    obtain ⟨h1, h2⟩ := h
    simp only [Bool.and_eq_true, ne_eq, List.all_eq_true] at hc
    constructor
    · intro d hd
      rcases List.mem_append.mp hd with hd | hd
      · exact h1 d hd
      · simp only [List.mem_singleton] at hd
        subst hd
        simpa using hc.1
    · rw [List.map_append]
      rw [List.nodup_append]
      refine ⟨h2, List.nodup_singleton _, ?_⟩
      intro x hx
      simp only [List.map_cons, List.map_nil, List.mem_singleton]
      intro hx2
      obtain ⟨d, hd, hdx⟩ := List.mem_map.mp hx
      subst hdx
      exact absurd hx2 (by simpa using hc.2 d hd)
  · simp only [hc, if_false]
    exact h

theorem foldl_addVectorResult_invariant (rs : List Drug) (ds : List Drug)
    (h : ndcInvariant ds) : ndcInvariant (rs.foldl addVectorResult ds) := by
  induction rs generalizing ds with
  | nil => exact h
  | cons r rs ih => exact ih _ (addVectorResult_invariant _ _ h)

theorem multiStep_invariant (o : Oracle) (acc : List Drug × List ExtCall) (t : String)
    (h : ndcInvariant acc.1) : ndcInvariant (multiStep o acc t).1 := by
  unfold multiStep
  by_cases he : !(o.embed t).success
  · simpa [he] using h
  · simp only [he, if_false]
    cases hv : o.vectorOnly t with
    | none => exact h
    | some rs => exact foldl_addVectorResult_invariant _ _ h

theorem foldl_multiStep_invariant (o : Oracle) (ts : List String)
    (acc : List Drug × List ExtCall) (h : ndcInvariant acc.1) :
    ndcInvariant ((ts.foldl (multiStep o) acc).1) := by
  induction ts generalizing acc with
  | nil => exact h
  | cons t ts ih => exact ih _ (multiStep_invariant o acc t h)

/-- Claim C9: The multi-concept merge de-duplicates on the NDC identifier and
silently drops per-term results with a missing/empty NDC: every candidate in
the merged vector result set has a non-empty NDC, and those NDCs are
pairwise distinct. -/
theorem multi_concept_merge_ndc_unique (o : Oracle) (terms : List String) :
    (∀ d ∈ (multiPhase1 o terms).1, d.ndc ≠ "") ∧
      ((multiPhase1 o terms).1.map (fun d => d.ndc)).Nodup := by
  have hbase : ndcInvariant [] :=
    ⟨fun d hd => absurd hd (List.not_mem_nil d), List.nodup_nil⟩
  exact foldl_multiStep_invariant o terms ([], []) hbase

/-- Models `grouped_results[:0] = []` (truncation at cap 0). -/
theorem truncateResults_zero (gs : List DrugGroup) : truncateResults gs 0 = [] := by
  unfold truncateResults pySliceTo
  cases gs with
  | nil => simp
  | cons g gs => simp

/-- Claim C10: `max_results` equal to 0 (or negative) is not rejected: with a
truthy query and collaborators/store succeeding, the handler returns a
success response (status 200), and for `max_results = 0` its grouped result
list is truncated to empty. -/
theorem max_results_zero_runs_to_completion (req : Request) (o : Oracle) (q : String)
    (hq : req.query = some q) (hq2 : q ≠ "")
    (hm : req.max_results.getD 20 ≤ 0)
    (hc : o.claude.success = true)
    (he : ∀ s, (o.embed s).success = true)
    (hf : o.hybrid.fail = none) :
    (lambda_handler req o).1.statusCode = 200 ∧
      (req.max_results.getD 20 = 0 → (lambda_handler req o).1.results = []) := by
  have hmax : ¬ req.max_results.getD 20 > 100 := by omega
  unfold lambda_handler
  rw [hq]
  simp only [hq2, if_false, hmax, hc, Bool.not_true, Bool.false_eq_true, if_false]
  by_cases hmulti : 3 ≤ (interpret o.claude q req.user_filters).drug_terms.length
  · simp only [hmulti, if_true]
    refine ⟨by simp [mk200], fun h0 => ?_⟩
    simp [mk200, h0, truncateResults_zero]
  · simp only [hmulti, if_false]
    rw [he (interpret o.claude q req.user_filters).expanded_query]
    simp only [Bool.not_true, Bool.false_eq_true, if_false]
    rw [redis_hybrid_search, hf]
    simp only [Bool.not_true, Bool.false_eq_true, if_false]
    refine ⟨by simp [mk200], fun h0 => ?_⟩
    simp [mk200, h0, truncateResults_zero]

/-- Witness for C10: a concrete request with `max_results = 0` completes with
status 200 and an empty result list. -/
theorem max_results_zero_witness :
    ((⟨some "crestor", [], some 0⟩ : Request).query = some "crestor") ∧
      (lambda_handler ⟨some "crestor", [], some 0⟩ oracleCrestor).1.statusCode = 200 ∧
      ((⟨some "crestor", [], some 0⟩ : Request).max_results.getD 20 = 0 →
        (lambda_handler ⟨some "crestor", [], some 0⟩ oracleCrestor).1.results = []) :=
  ⟨rfl,
   max_results_zero_runs_to_completion _ oracleCrestor "crestor" rfl (by decide) (by decide)
     rfl (fun _ => rfl) rfl⟩

/-- Claim C3: The strength post-filter retains exactly the candidates whose
display name matches one of the unit-aware patterns
(`(?<!\d)NUM(?!\d)\s*UNIT`, or `(?<!\d)NUM(?!\d)\s*[A-Z%]` when no unit was
specified — any unit suffix accepted), and with no extracted strength it
passes everything through.  In particular the strength filter "200 MG"
parses to the pair `("200", MG)`, excludes "DRUG 1200 MG TABLET" (the
lookbehind blocks the match inside "1200") and retains
"DRUG 200 MG TABLET"; a unitless "12.5" matches "12.5 MG" and "12.5 %"
but not "112.5 MG". -/
theorem strength_post_filter_retains_exactly_matches :
    (∀ (svs : List (String × Option String)) (drugs : List Drug) (d : Drug),
        d ∈ strengthPostFilter svs drugs ↔
          d ∈ drugs ∧ (svs = [] ∨
            svs.any (fun p => strengthValueMatch p.1 p.2 d.drug_name) = true)) ∧
      parseStrengthSetting "200 MG" = [("200", some "MG")] ∧
      strengthValueMatch "200" (some "MG") "DRUG 1200 MG TABLET" = false ∧
      strengthValueMatch "200" (some "MG") "DRUG 200 MG TABLET" = true ∧
      strengthValueMatch "12.5" none "DRUG 12.5 MG TABLET" = true ∧
      strengthValueMatch "12.5" none "DRUG 12.5 % CREAM" = true ∧
      strengthValueMatch "12.5" none "DRUG 112.5 MG TABLET" = false := by
  refine ⟨fun svs drugs d => ?_, by decide, by decide, by decide, by decide, by decide,
    by decide⟩
  unfold strengthPostFilter
  cases svs with
  | nil => simp
  | cons p ps =>
    rw [if_neg (by simp)]
    rw [List.mem_filter]
    constructor
    · rintro ⟨h1, h2⟩
      exact ⟨h1, Or.inr h2⟩
    · rintro ⟨h1, h2 | h2⟩
      · exact absurd h2 (List.cons_ne_nil p ps)
      · exact ⟨h1, h2⟩

/-! Variant provenance: every variant of every group produced by the grouper
is the variant record of one of the input candidates. -/

theorem bumpSimilarity_variants (g : DrugGroup) (d : Drug) :
    (bumpSimilarity g d).variants = g.variants := by
  unfold bumpSimilarity
  cases d.similarity_score_pct with
  | none => rfl
  | some s =>
    dsimp only
    split <;> rfl

theorem addDosageForm_variants (g : DrugGroup) (d : Drug) :
    (addDosageForm g d).variants = g.variants := by
  unfold addDosageForm
  split <;> rfl

theorem addVariant_variants (g : DrugGroup) (d : Drug) :
    (addVariant g d).variants = g.variants ++ [mkVariant d] := rfl

theorem updates_preserve_variants (g : DrugGroup) (d : Drug) :
    (addVariant (addDosageForm (bumpSimilarity g d) d) d).variants
      = g.variants ++ [mkVariant d] := by
  rw [addVariant_variants, addDosageForm_variants, bumpSimilarity_variants]

theorem newGroup_variants (indicStore : String → Option String) (lo : List String)
    (rndc : Option String) (key : String) (d : Drug) :
    (newGroup indicStore lo rndc key d).variants = [] := rfl

theorem new_group_insert_variants (indicStore : String → Option String) (lo : List String)
    (rndc : Option String) (key : String) (d : Drug) :
    (addVariant (addDosageForm (newGroup indicStore lo rndc key d) d) d).variants
      = [mkVariant d] := by
  rw [addVariant_variants, addDosageForm_variants, newGroup_variants, List.nil_append]

theorem insertDoc_variants (indicStore : String → Option String) (lo : List String)
    (rndc : Option String) (gs : List DrugGroup) (d : Drug) (P : Variant → Prop)
    (hgs : ∀ g ∈ gs, ∀ v ∈ g.variants, P v) (hd : P (mkVariant d)) :
    ∀ g ∈ insertDoc indicStore lo rndc gs d, ∀ v ∈ g.variants, P v := by
  unfold insertDoc
  by_cases hk : gs.any (fun g => g.group_id = groupKeyOf d)
  · simp only [hk, if_true]
    intro g hg v hv
    obtain ⟨g0, hg0, hge⟩ := List.mem_map.mp hg
    by_cases he : g0.group_id = groupKeyOf d
    · rw [if_pos he] at hge
      subst hge
      rw [updates_preserve_variants] at hv
      rcases List.mem_append.mp hv with hv | hv
      · exact hgs g0 hg0 v hv
      · simp only [List.mem_singleton] at hv
        subst hv
        exact hd
    · rw [if_neg he] at hge
      subst hge
      exact hgs g0 hg0 v hv
  · simp only [hk, if_false]
    intro g hg v hv
    rcases List.mem_append.mp hg with hg | hg
    · exact hgs g hg v hv
    · simp only [List.mem_singleton] at hg
      subst hg
      rw [new_group_insert_variants] at hv
      simp only [List.mem_singleton] at hv
      subst hv
      exact hd

theorem foldl_insertDoc_variants (indicStore : String → Option String) (lo : List String)
    (rndc : Option String) (ds : List Drug) (gs : List DrugGroup) (P : Variant → Prop)
    (hgs : ∀ g ∈ gs, ∀ v ∈ g.variants, P v) (hds : ∀ d ∈ ds, P (mkVariant d)) :
    ∀ g ∈ ds.foldl (insertDoc indicStore lo rndc) gs, ∀ v ∈ g.variants, P v := by
  induction ds generalizing gs with
  | nil => exact hgs
  | cons d ds ih =>
    exact ih _
      (insertDoc_variants indicStore lo rndc gs d P hgs (hds d (List.mem_cons_self d ds)))
      (fun d2 hd2 => hds d2 (List.mem_cons_of_mem d hd2))

theorem group_search_results_variants (drugs : List Drug)
    (original_terms claude_terms : List String) (filters : Filters)
    (indicStore : String → Option String) :
    ∀ g ∈ group_search_results drugs original_terms claude_terms filters indicStore,
      ∀ v ∈ g.variants, ∃ d ∈ drugs, v = mkVariant d := by
  intro g hg v hv
  unfold group_search_results at hg
  rw [List.mem_insertionSort] at hg
  obtain ⟨g0, hg0, hge⟩ := List.mem_map.mp hg
  have hvar : g.variants = g0.variants := by
    subst hge
    rfl
  rw [hvar] at hv
  exact foldl_insertDoc_variants indicStore (original_terms.map pyLower) (fget filters "ndc")
    drugs [] (fun v => ∃ d ∈ drugs, v = mkVariant d)
    (fun g hg => absurd hg (List.not_mem_nil g))
    (fun d hd => ⟨d, hd, rfl⟩) g0 hg0 v hv

/-- Claim C5, amended: On the single-concept path (`redis_hybrid_search`) the
non-prescribable post-filter runs last: no candidate matching the fixed
compounding-base/vehicle patterns appears in the returned raw results, and
every group variant is the variant record of one of those (filtered) raw
results.  (The multi-concept path applies no such filter; see the
counterexample.) -/
theorem hybrid_path_excludes_generic_bases (store : HybridStore)
    (original_terms claude_terms : List String) (filters : Filters) (limit : Int) :
    (∀ d ∈ (redis_hybrid_search store original_terms claude_terms filters limit).1.raw_results,
        isGenericBase d.drug_class d.drug_name = false) ∧
      (∀ g ∈ (redis_hybrid_search store original_terms claude_terms filters limit).1.groups,
        ∀ v ∈ g.variants,
          ∃ d ∈ (redis_hybrid_search store original_terms claude_terms filters
            limit).1.raw_results, v = mkVariant d) := by
  cases hf : store.fail with
  | some e =>
    simp only [redis_hybrid_search, hf]
    exact ⟨fun d hd => absurd hd (List.not_mem_nil d),
      fun g hg => absurd hg (List.not_mem_nil g)⟩
  | none =>
    simp only [redis_hybrid_search, hf]
    constructor
    · intro d hd
      simp only [List.mem_filter] at hd
      simpa using hd.2
    · intro g hg v hv
      exact group_search_results_variants _ _ _ _ _ g hg v hv

def reqMenthol : Request :=
  { query := some "menthol camphor lidocaine", user_filters := [], max_results := some 20 }

def oracleMenthol : Oracle :=
  { claude :=
      { success := true, error := "", content := "menthol camphor lidocaine",
        structured := { search_text := "menthol camphor lidocaine", filters := [],
                        corrections := [],
                        search_terms := ["menthol", "camphor", "lidocaine"] } }
    embed := fun _ => { success := true, error := "" }
    vectorOnly := fun t => if t = "menthol" then some [drugMenthol] else some []
    expansion := { fail := false, dcResults := [], tcResults := [] }
    hybrid := { fail := none, vectorResults := [], dcResults := [], tcResults := [],
                indicStore := fun _ => none }
    multiIndic := fun _ => none }

/-- Counterexample to C5 as stated: on the multi-concept path a candidate
matching the non-prescribable patterns (pure "MENTHOL") flows through to the
returned raw results and to a group variant — the generic-base post-filter
is applied only inside `redis_hybrid_search`, which the multi-concept path
never calls. -/
theorem multi_path_returns_generic_base :
    ((lambda_handler reqMenthol oracleMenthol).1.raw_results.any
        (fun d => isGenericBase d.drug_class d.drug_name) = true) ∧
      ((lambda_handler reqMenthol oracleMenthol).1.results.any
        (fun g => g.variants.any (fun v => v.label = "MENTHOL")) = true) := by
  decide

/-! ### C2: which term set seeds class expansion -/

/-- Counterexample to C2 as stated: for the misspelled query "crester" the
handler's exact-match anchor detection uses the collaborator's corrected
terms, not the original user terms — the pipeline expands the drug class
ROSUVASTATIN CALCIUM (anchored by the collaborator term "crestor"), while
anchor detection over the original user terms ("crester") would have found
no anchor at all. -/
theorem anchor_terms_not_original_counterexample :
    (lambda_handler reqCrestor oracleCrestor).1.expansion_debug.drug_classes_found
        = ["ROSUVASTATIN CALCIUM"] ∧
      anchorDrugClasses (extract_search_terms "crester" 8)
        (oracleCrestor.hybrid.vectorResults.map markVector) = [] := by
  decide

/-- Claim C2, amended: The term set used for exact-match anchor detection in
class expansion is the handler's `exact_match_terms` selection: the
collaborator (Claude) terms when corrections are present and the
collaborator term count is at most the original term count plus 2, or when
the collaborator terms are nonempty and the expanded query differs from the
raw query; the original user terms only otherwise.  Concretely: on the
single-concept path the drug classes reported expanded are exactly the
anchor classes detected with that selected term set. -/
theorem anchor_terms_follow_selection_policy (req : Request) (o : Oracle) (q : String)
    (hq : req.query = some q) (hq2 : q ≠ "")
    (hmax : ¬ req.max_results.getD 20 > 100)
    (hc : o.claude.success = true)
    (hsingle : ¬ 3 ≤ (interpret o.claude q req.user_filters).drug_terms.length)
    (he : (o.embed (interpret o.claude q req.user_filters).expanded_query).success = true)
    (hf : o.hybrid.fail = none) :
    (lambda_handler req o).1.expansion_debug.drug_classes_found
        = anchorDrugClasses (interpret o.claude q req.user_filters).exact_match_terms
            (o.hybrid.vectorResults.map markVector) ∧
      (interpret o.claude q req.user_filters).exact_match_terms
        = (if (interpret o.claude q req.user_filters).corrections ≠ [] ∧
              (interpret o.claude q req.user_filters).claude_terms.length ≤
                (interpret o.claude q req.user_filters).original_terms.length + 2
           then (interpret o.claude q req.user_filters).claude_terms
           else if (interpret o.claude q req.user_filters).claude_terms ≠ [] ∧
              (interpret o.claude q req.user_filters).expanded_query ≠ q
           then (interpret o.claude q req.user_filters).claude_terms
           else (interpret o.claude q req.user_filters).original_terms) := by
  constructor
  · unfold lambda_handler
    rw [hq]
    simp only [hq2, if_false, hmax, hc, Bool.not_true, Bool.false_eq_true, if_false, hsingle]
    rw [he]
    simp only [Bool.not_true, Bool.false_eq_true, if_false]
    rw [redis_hybrid_search, hf]
    simp only [Bool.not_true, Bool.false_eq_true, if_false]
    rfl
  · simp only [interpret]
    by_cases h1 : (claudeStructuredOf o.claude).corrections = []
    · simp only [h1]
      by_cases h2 :
          (if (claudeStructuredOf o.claude).search_terms.isEmpty = true then
              extract_search_terms
                (firstNonEmpty [(claudeStructuredOf o.claude).search_text, o.claude.content, q]) 8
            else (claudeStructuredOf o.claude).search_terms) = []
      · simp [h2]
      · by_cases h3 :
            firstNonEmpty [(claudeStructuredOf o.claude).search_text, o.claude.content, q] = q
        · simp [h2, h3]
        · simp [h2, h3]
    · by_cases h4 :
          (if (claudeStructuredOf o.claude).search_terms.isEmpty = true then
              extract_search_terms
                (firstNonEmpty [(claudeStructuredOf o.claude).search_text, o.claude.content, q]) 8
            else (claudeStructuredOf o.claude).search_terms).length ≤
            (extract_search_terms q 8).length + 2
      · simp [h1, h4]
      · by_cases h2 :
            (if (claudeStructuredOf o.claude).search_terms.isEmpty = true then
                extract_search_terms
                  (firstNonEmpty [(claudeStructuredOf o.claude).search_text, o.claude.content, q]) 8
              else (claudeStructuredOf o.claude).search_terms) = []
        · simp [h1, h4, h2]
        · by_cases h3 :
              firstNonEmpty [(claudeStructuredOf o.claude).search_text, o.claude.content, q] = q
          · simp [h1, h4, h2, h3]
          · simp [h1, h4, h2, h3]

/-- Witness for the amended C2, at the "crester → crestor" fixture. -/
theorem anchor_terms_policy_witness :
    (lambda_handler reqCrestor oracleCrestor).1.expansion_debug.drug_classes_found
        = anchorDrugClasses
            (interpret oracleCrestor.claude "crester" reqCrestor.user_filters).exact_match_terms
            (oracleCrestor.hybrid.vectorResults.map markVector) ∧
      (interpret oracleCrestor.claude "crester" reqCrestor.user_filters).exact_match_terms
        = (if (interpret oracleCrestor.claude "crester" reqCrestor.user_filters).corrections ≠ [] ∧
              (interpret oracleCrestor.claude "crester"
                reqCrestor.user_filters).claude_terms.length ≤
                (interpret oracleCrestor.claude "crester"
                  reqCrestor.user_filters).original_terms.length + 2
           then (interpret oracleCrestor.claude "crester" reqCrestor.user_filters).claude_terms
           else if (interpret oracleCrestor.claude "crester"
                reqCrestor.user_filters).claude_terms ≠ [] ∧
              (interpret oracleCrestor.claude "crester"
                reqCrestor.user_filters).expanded_query ≠ "crester"
           then (interpret oracleCrestor.claude "crester" reqCrestor.user_filters).claude_terms
           else (interpret oracleCrestor.claude "crester"
            reqCrestor.user_filters).original_terms) :=
  anchor_terms_follow_selection_policy reqCrestor oracleCrestor "crester" rfl (by decide)
    (by decide) rfl (by decide) rfl rfl

/-! ### C4: strategy selection -/

def reqAspirin : Request :=
  { query := some "aspirin tablet 1000", user_filters := [], max_results := some 20 }

def oracleAspirin : Oracle :=
  { claude :=
      { success := true, error := "", content := "aspirin tablet 1000",
        structured := { search_text := "aspirin tablet 1000", filters := [], corrections := [],
                        search_terms := ["aspirin", "tablet", "1000"] } }
    embed := fun _ => { success := true, error := "" }
    vectorOnly := fun _ => some []
    expansion := { fail := false, dcResults := [], tcResults := [] }
    hybrid := { fail := none, vectorResults := [], dcResults := [], tcResults := [],
                indicStore := fun _ => none }
    multiIndic := fun _ => none }

/-- Counterexample to C4 as stated: the source counts every collaborator term
longer than 3 characters — it does not remove dosage-form or pure-numeric
tokens.  For terms `aspirin tablet 1000` only one term is drug-like in the
spec's sense (≤ 2, so the single-concept strategy should run), yet the
handler runs the multi-concept per-term strategy, observable by its
per-term embedding call for the dosage-form word "tablet". -/
theorem strategy_ignores_token_type_counterexample :
    ((lambda_handler reqAspirin oracleAspirin).2.contains (ExtCall.embed "tablet") = true) ∧
      (specDrugLikeTerms ["aspirin", "tablet", "1000"]).length ≤ 2 := by
  decide

theorem embedTexts_append (a b : List ExtCall) :
    embedTexts (a ++ b) = embedTexts a ++ embedTexts b :=
  List.filterMap_append a b _

theorem embedTexts_multiStep (o : Oracle) (acc : List Drug × List ExtCall) (t : String) :
    embedTexts (multiStep o acc t).2 = embedTexts acc.2 ++ [t] := by
  unfold multiStep
  by_cases he : !(o.embed t).success
  · simp [he, embedTexts_append, embedTexts]
  · simp only [he, if_false]
    cases o.vectorOnly t with
    | none => simp [embedTexts_append, embedTexts]
    | some rs => simp [embedTexts_append, embedTexts]

theorem embedTexts_foldl_multiStep (o : Oracle) (ts : List String)
    (acc : List Drug × List ExtCall) :
    embedTexts ((ts.foldl (multiStep o) acc).2) = embedTexts acc.2 ++ ts := by
  induction ts generalizing acc with
  | nil => simp
  | cons t ts ih =>
    simp only [List.foldl_cons]
    rw [ih, embedTexts_multiStep]
    simp

theorem embedTexts_dcStep (drugs : List Drug) (dcs : List String) (store : List Drug) :
    embedTexts (dcExpansionStep drugs dcs store).2 = [] := by
  unfold dcExpansionStep
  split <;> simp [embedTexts]

theorem embedTexts_tcStep (drugs : List Drug) (tcs : List String) (store : List Drug) :
    embedTexts (tcExpansionStep drugs tcs store).2 = [] := by
  simp only [tcExpansionStep]
  split <;> rfl

theorem embedTexts_expansion (store : ExpansionStore) (initial : List Drug)
    (ot ct : List String) (f : Filters) :
    embedTexts (perform_drug_expansion store initial ot ct f).2 = [] := by
  unfold perform_drug_expansion
  split
  · simp [embedTexts]
  · rw [embedTexts_append, embedTexts_dcStep, embedTexts_tcStep]
    rfl

theorem embedTexts_hybrid (store : HybridStore) (ot ct : List String) (f : Filters)
    (lim : Int) : embedTexts (redis_hybrid_search store ot ct f lim).2 = [] := by
  cases hf : store.fail with
  | some e => simp [redis_hybrid_search, hf, embedTexts]
  | none =>
    simp only [redis_hybrid_search, hf]
    rw [show ∀ (c : ExtCall) (l : List ExtCall), c :: l = [c] ++ l from fun c l => rfl,
      embedTexts_append, embedTexts_append, embedTexts_dcStep, embedTexts_tcStep]
    rfl

/-- Claim C4, amended: The retrieval strategy is chosen by the cardinality of
collaborator terms longer than 3 characters, with no removal of dosage-form,
unit or pure-numeric tokens: with 3 or more such terms the multi-concept
strategy runs (one embedding call per such term), otherwise the
single-concept strategy runs (one embedding call, for the expanded query
text). -/
theorem strategy_chosen_by_term_length_only (req : Request) (o : Oracle) (q : String)
    (hq : req.query = some q) (hq2 : q ≠ "")
    (hmax : ¬ req.max_results.getD 20 > 100)
    (hc : o.claude.success = true) :
    (interpret o.claude q req.user_filters).drug_terms
        = (interpret o.claude q req.user_filters).claude_terms.filter (fun t => 3 < t.length) ∧
      embedTexts (lambda_handler req o).2
        = (if 3 ≤ (interpret o.claude q req.user_filters).drug_terms.length
           then (interpret o.claude q req.user_filters).drug_terms
           else [(interpret o.claude q req.user_filters).expanded_query]) := by
  refine ⟨rfl, ?_⟩
  unfold lambda_handler
  rw [hq]
  simp only [hq2, if_false, hmax, hc, Bool.not_true, Bool.false_eq_true, if_false]
  by_cases hmulti : 3 ≤ (interpret o.claude q req.user_filters).drug_terms.length
  · simp only [hmulti, if_true]
    rw [embedTexts_append, embedTexts_append]
    rw [show (multiPhase1 o (interpret o.claude q req.user_filters).drug_terms).2
        = ((interpret o.claude q req.user_filters).drug_terms.foldl (multiStep o) ([], [])).2
      from rfl]
    rw [embedTexts_foldl_multiStep, embedTexts_expansion]
    simp [embedTexts]
  · simp only [hmulti, if_false]
    by_cases he : (o.embed (interpret o.claude q req.user_filters).expanded_query).success
    · rw [he]
      simp only [Bool.not_true, Bool.false_eq_true, if_false]
      by_cases hs : (redis_hybrid_search o.hybrid
          (interpret o.claude q req.user_filters).exact_match_terms
          (interpret o.claude q req.user_filters).claude_terms
          (interpret o.claude q req.user_filters).merged_filters
          (req.max_results.getD 20 * 3)).1.success
      · simp only [hs, Bool.not_true, Bool.false_eq_true, if_false]
        rw [embedTexts_append, embedTexts_append, embedTexts_hybrid]
        simp [embedTexts]
      · simp only [hs, Bool.not_false, if_true]
        rw [embedTexts_append, embedTexts_append, embedTexts_hybrid]
        simp [embedTexts]
    · rw [Bool.eq_false_iff.mpr he]
      simp only [Bool.not_false, if_true]
      rw [embedTexts_append]
      simp [embedTexts]

/-- Witness for the amended C4, at the three-term fixture (multi-concept:
one embedding per long term). -/
theorem strategy_by_length_witness :
    (interpret oracleAspirin.claude "aspirin tablet 1000" reqAspirin.user_filters).drug_terms
        = (interpret oracleAspirin.claude "aspirin tablet 1000"
            reqAspirin.user_filters).claude_terms.filter (fun t => 3 < t.length) ∧
      embedTexts (lambda_handler reqAspirin oracleAspirin).2
        = (if 3 ≤ (interpret oracleAspirin.claude "aspirin tablet 1000"
              reqAspirin.user_filters).drug_terms.length
           then (interpret oracleAspirin.claude "aspirin tablet 1000"
              reqAspirin.user_filters).drug_terms
           else [(interpret oracleAspirin.claude "aspirin tablet 1000"
              reqAspirin.user_filters).expanded_query]) :=
  strategy_chosen_by_term_length_only reqAspirin oracleAspirin "aspirin tablet 1000" rfl
    (by decide) (by decide) rfl

/-! ### C8: error propagation -/

def reqBoom : Request :=
  { query := some "crestor", user_filters := [], max_results := some 20 }

def oracleBoom : Oracle :=
  { claude :=
      { success := false, error := "connection reset by peer", content := "",
        structured := { search_text := "", filters := [], corrections := [], search_terms := [] } }
    embed := fun _ => { success := true, error := "" }
    vectorOnly := fun _ => some []
    expansion := { fail := false, dcResults := [], tcResults := [] }
    hybrid := { fail := none, vectorResults := [], dcResults := [], tcResults := [],
                indicStore := fun _ => none }
    multiIndic := fun _ => none }

/-- Counterexample to C8 as stated: the raw error string of a failing
collaborator *is* embedded verbatim in the externally visible response body
(after the stage prefix). -/
theorem raw_exception_text_embedded_in_response :
    pyContains (lambda_handler reqBoom oracleBoom).1.error "connection reset by peer" = true ∧
      (lambda_handler reqBoom oracleBoom).1.error
        = "Claude preprocessing failed: connection reset by peer" := by
  decide

/-- Claim C8, amended: Every failing response carries a stage-tagged message,
but the message is the stage prefix followed by the internal error text
verbatim (or one of the two fixed validation messages) — the raw
collaborator/store error string is embedded in the response body rather than
replaced by a generic message. -/
theorem failure_message_is_stage_plus_internal_error (req : Request) (o : Oracle)
    (h : (lambda_handler req o).1.success = false) :
    (lambda_handler req o).1.error = "Missing required field: query" ∨
      (lambda_handler req o).1.error = "max_results cannot exceed 100" ∨
      (lambda_handler req o).1.error = "Claude preprocessing failed: " ++ o.claude.error ∨
      (lambda_handler req o).1.error = "Embedding generation failed: "
        ++ (o.embed (interpret o.claude (req.query.getD "") req.user_filters).expanded_query).error ∨
      (lambda_handler req o).1.error = "Redis search failed: " ++ o.hybrid.fail.getD "" := by
  unfold lambda_handler at *
  cases hq : req.query with
  | none => exact Or.inl rfl
  | some q =>
    rw [hq] at h
    by_cases hq2 : q = ""
    · simp only [hq2, if_true]
      exact Or.inl rfl
    · simp only [hq2, if_false] at h ⊢
      by_cases hmax : req.max_results.getD 20 > 100
      · simp only [hmax, if_true]
        exact Or.inr (Or.inl rfl)
      · simp only [hmax, if_false] at h ⊢
        by_cases hc : o.claude.success
        · rw [hc] at h ⊢
          simp only [Bool.not_true, Bool.false_eq_true, if_false] at h ⊢
          by_cases hmulti : 3 ≤ (interpret o.claude q req.user_filters).drug_terms.length
          · rw [if_pos hmulti] at h
            exact absurd h (by simp [mk200])
          · rw [if_neg hmulti] at h ⊢
            by_cases he :
                (o.embed (interpret o.claude q req.user_filters).expanded_query).success
            · rw [he] at h ⊢
              simp only [Bool.not_true, Bool.false_eq_true, if_false] at h ⊢
              cases hf : o.hybrid.fail with
              | some e =>
                rw [redis_hybrid_search, hf] at h ⊢
                simp only [Bool.not_false, if_true]
                exact Or.inr (Or.inr (Or.inr (Or.inr rfl)))
              | none =>
                rw [redis_hybrid_search, hf] at h
                simp only [Bool.not_true, Bool.false_eq_true, if_false] at h
                exact absurd h (by simp [mk200])
            · rw [Bool.eq_false_iff.mpr he] at h ⊢
              simp only [Bool.not_false, if_true]
              exact Or.inr (Or.inr (Or.inr (Or.inl rfl)))
        · rw [Bool.eq_false_iff.mpr hc] at h ⊢
          simp only [Bool.not_false, if_true]
          exact Or.inr (Or.inr (Or.inl rfl))

/-- Witness for the amended C8, at the failing-collaborator fixture. -/
theorem failure_message_witness :
    ((lambda_handler reqBoom oracleBoom).1.success = false) ∧
      ((lambda_handler reqBoom oracleBoom).1.error = "Missing required field: query" ∨
        (lambda_handler reqBoom oracleBoom).1.error = "max_results cannot exceed 100" ∨
        (lambda_handler reqBoom oracleBoom).1.error
          = "Claude preprocessing failed: " ++ oracleBoom.claude.error ∨
        (lambda_handler reqBoom oracleBoom).1.error = "Embedding generation failed: "
          ++ (oracleBoom.embed (interpret oracleBoom.claude (reqBoom.query.getD "")
              reqBoom.user_filters).expanded_query).error ∨
        (lambda_handler reqBoom oracleBoom).1.error
          = "Redis search failed: " ++ oracleBoom.hybrid.fail.getD "") :=
  ⟨by decide, failure_message_is_stage_plus_internal_error reqBoom oracleBoom (by decide)⟩

end DrugSearch
